import Mathlib

/-!
Shallow embedding of the stencil dialect's combine-to-if/else lowering
(`lib/Dialect/Stencil/CombineToIfElsePass.cpp`) and of the operation
verifiers declared in `include/Dialect/Stencil/StencilOps.td`.

Values of the surrounding SSA graph are identified by natural numbers.
Values inside an apply op's single-block region are identified by `Atom`:
either a block argument (`arg i`) or the result of the `i`-th operation of
the block (`loc i`).  Rewrites are modelled as pure functions returning a
`RewriteResult` that records, in order, the operations the rewriter
created, the operations it replaced or erased, the emitted warnings, and a
structured description of the op built on success.
-/

set_option linter.unusedVariables false

namespace Stencil

/-- SSA value identifier in the surrounding function graph. -/
abbrev Val := Nat

/-- Scalar element types admitted by the dialect (`Stencil_Element`). -/
inductive EType
  | f32
  | f64
  deriving DecidableEq, Repr

/-- Model of the MLIR types the lowering manipulates. -/
inductive MType
  | temp (elem : EType) (shape : List Int)
  | field (elem : EType) (shape : List Int)
  | result (elem : EType)
  | indexTy
  | i1
  deriving DecidableEq, Repr

instance : Inhabited MType := ⟨MType.indexTy⟩

/-- `GridType::getElementType` / `ResultType::getResultType` seen as one
element-type projection; non-grid types return a junk value, mirroring the
fact that the source never queries them. -/
def MType.elementType : MType → EType
  | .temp e _ => e
  | .field e _ => e
  | .result e => e
  | .indexTy => .f64
  | .i1 => .f64

/-- `type.cast<ResultType>().getResultType()`: the wrapped result type.
The cast asserts in the source; non-result types map to a junk value. -/
def MType.castResultType : MType → EType
  | .result e => e
  | _ => .f32

/-- Whether a type is a `!stencil.result<...>` type (ODS `Stencil_Result`). -/
def MType.isResultType : MType → Bool
  | .result _ => true
  | _ => false

/-- A typed SSA value of the surrounding graph. -/
structure TVal where
  val : Val
  ty : MType
  deriving DecidableEq, Repr

instance : Inhabited TVal := ⟨⟨0, default⟩⟩

/-- A value reference inside an apply op's block: a block argument or the
result of the `i`-th operation of the block. -/
inductive Atom
  | arg (i : Nat)
  | loc (i : Nat)
  deriving DecidableEq, Repr

/-- A typed value reference inside a block. -/
structure VRef where
  atom : Atom
  ty : MType
  deriving DecidableEq, Repr

instance : Inhabited VRef := ⟨⟨Atom.arg 0, default⟩⟩

/-- Kind of an operation inside an apply body: either an opaque payload
operation or a `stencil.store_result` with its declared result type. -/
inductive InstKind
  | generic (tag : Nat)
  | storeResult (resType : MType)
  deriving DecidableEq, Repr

/-- A non-terminator operation of an apply body. -/
structure Inst where
  kind : InstKind
  operands : List VRef
  deriving DecidableEq, Repr

/-- `stencil.return`: terminator of an apply body, with the optional
per-axis `unroll` attribute (`OptionalAttr<Stencil_Index>`). -/
structure ReturnOp where
  operands : List VRef
  unroll : Option (List Int)
  deriving DecidableEq, Repr

/-- Wrap-around of a C `int64_t` product step. -/
def i64wrap (x : Int) : Int := (x + 2 ^ 63) % 2 ^ 64 - 2 ^ 63

/-- Conversion of an `int64_t` value to a C `unsigned` (32-bit). -/
def toU32 (x : Int) : Nat := (x % 2 ^ 32).toNat

/-- `ReturnOp::getUnrollFac`: the product of the unroll entries folded in
`int64_t` arithmetic and stored into an `unsigned`, `1` if the attribute
is absent. -/
def ReturnOp.getUnrollFac (r : ReturnOp) : Nat :=
  match r.unroll with
  | none => 1
  | some u => toU32 (u.foldl (fun a b => i64wrap (a * b)) 1)

/-- `ReturnOp::getUnrollDim`: position of the first unroll entry equal to
the unroll factor, `0` if the attribute is absent. -/
def ReturnOp.getUnrollDim (r : ReturnOp) : Nat :=
  match r.unroll with
  | none => 0
  | some u => u.findIdx (fun x => x == (r.getUnrollFac : Int))

/-- The single block of an apply op's region: its arguments mirror the
apply operands one to one, so only the operation list and the terminator
are stored. -/
structure Block where
  insts : List Inst
  ret : ReturnOp
  deriving DecidableEq, Repr

/-- `stencil.apply`: operands, optional bound pair, result values and the
single-block body. -/
structure ApplyOp where
  operands : List TVal
  lb : Option (List Int)
  ub : Option (List Int)
  results : List TVal
  body : Block
  deriving DecidableEq, Repr

/-- `getResultTypes()` of an apply op. -/
def ApplyOp.resultTypes (a : ApplyOp) : List MType := a.results.map TVal.ty

/-- `ShapeOp::hasShape`: both bounds present. -/
def ApplyOp.hasShape (a : ApplyOp) : Bool := a.lb.isSome && a.ub.isSome

/-- `ShapeOp::getLB` (meaningful only when the shape is set). -/
def ApplyOp.getLB (a : ApplyOp) : List Int := a.lb.getD []

/-- `ShapeOp::getUB` (meaningful only when the shape is set). -/
def ApplyOp.getUB (a : ApplyOp) : List Int := a.ub.getD []

/-- `stencil.combine`: split dimension, split index, the four operand
segments, the optional bound pair and the result types. -/
structure CombineOp where
  dim : Nat
  index : Int
  lower : List TVal
  upper : List TVal
  lowerext : List TVal
  upperext : List TVal
  lb : Option (List Int)
  ub : Option (List Int)
  resultTypes : List MType
  deriving DecidableEq, Repr

/-- `kIndexSize`: the fixed index rank of the dialect (`Stencil_Index` is
an `I64ArrayAttr` of exactly three entries). -/
def kIndexSize : Nat := 3

/-- `applyFunElementWise`: pointwise combination of two index vectors.
Modelled from the spec: the helper lives in a header outside the given
sources; spec section 4.1 describes the pointwise extent algebra, and the
argument order is fixed so that the Mirror rewrite's call
`applyFunElementWise(getUB(), getLB(), std::minus)` yields the per-axis
extents `ub - lb` of spec section 3. -/
def applyFunElementWise (x y : List Int) (f : Int → Int → Int) : List Int :=
  List.zipWith f x y

/-- The verifier of `stencil.return` from `StencilOps.td`: the ODS operand
constraint (`Variadic<Stencil_Result>`) followed by the custom verifier
body, which checks the operand count against the apply result count times
the unroll factor and each operand's wrapped result type against the
element type of the corresponding apply result. -/
def ReturnOp.verify (applyResultTypes : List MType) (r : ReturnOp) : Bool :=
  r.operands.all (fun o => o.ty.isResultType) &&
  (let unrollFac := r.getUnrollFac
   decide (r.operands.length = unrollFac * applyResultTypes.length) &&
   (List.range applyResultTypes.length).all (fun i =>
     (List.range unrollFac).all (fun j =>
       ((r.operands.getD (i * unrollFac + j) default).ty.castResultType ==
        (applyResultTypes.getD i default).elementType))))

/-!  Rewriter trace: records of what a pattern created, replaced, erased. -/

/-- Record of an operation created through `rewriter.create<...>`, with the
attributes the lowering passes to the builder. -/
inductive COp
  | applyOp (operands : List TVal) (lb ub : Option (List Int)) (resultTypes : List MType)
  | indexOp (dim : Nat) (offset : List Int)
  | constantOp (value : Int)
  | cmpIOpUlt
  | scfIfOp (resultTypes : List MType)
  | scfYieldOp
  | returnOp (unroll : Option (List Int))
  | storeResultOp (resType : MType)
  | combineOp (dim : Nat) (index : Int)
  deriving DecidableEq, Repr

/-- Whether a created operation is a `stencil.apply`. -/
def COp.isApplyOp : COp → Bool
  | .applyOp _ _ _ _ => true
  | _ => false

/-- Names for the pre-existing operations a rewrite erases or replaces. -/
inductive OpTag
  | applyOp1
  | applyOp2
  | returnOp1
  | returnOp2
  | lowerOp
  | upperOp
  | theCombineOp
  | lowerReturnOp
  | upperReturnOp
  deriving DecidableEq, Repr

/-- Record of a `rewriter.replaceOp` / `replaceOpWithNewOp` call: an op is
replaced either by a slice of the new op's results (given by their result
indices) or by a fresh `scf.yield` with the given operands. -/
inductive Replacement
  | byNewResults (tag : OpTag) (resultIndices : List Nat)
  | byYield (tag : OpTag) (operands : List VRef)
  deriving DecidableEq, Repr

/-- Outcome of one rewrite attempt: the creation trace in program order,
the replacements and erasures performed, the warnings emitted, and the
structured new computation on success (`none` encodes `failure()`). -/
structure RewriteResult (α : Type) where
  created : List COp
  replaced : List Replacement
  erased : List OpTag
  warnings : List String
  result : Option α
  deriving DecidableEq, Repr

/-- A failed match that touched nothing. -/
def noRewrite {α : Type} : RewriteResult α := ⟨[], [], [], [], none⟩

/-!  Block surgery: `rewriter.mergeBlocks(src, dest, argReplacements)`
replaces every use of the `i`-th source block argument by the
`argReplacements[i]`-th argument of the enclosing new apply block, and
shifts source-local operation results by the number of operations already
in the destination block. -/

/-- Remap one value reference under a block merge. -/
def remapAtom (repl : List Nat) (shift : Nat) : Atom → Atom
  | .arg i => .arg (repl.getD i 0)
  | .loc i => .loc (i + shift)

/-- Remap a typed value reference under a block merge. -/
def remapVRef (repl : List Nat) (shift : Nat) (v : VRef) : VRef :=
  { v with atom := remapAtom repl shift v.atom }

/-- Remap all operands of an operation under a block merge. -/
def remapInst (repl : List Nat) (shift : Nat) (inst : Inst) : Inst :=
  { inst with operands := inst.operands.map (remapVRef repl shift) }

/-!  `FuseRewrite::fuseApplyOps` (CombineToIfElsePass.cpp). -/

/-- The apply op built by a fuse or mirror rewrite (fresh SSA results, so
only the result types are recorded). -/
structure BuiltApply where
  operands : List TVal
  lb : Option (List Int)
  ub : Option (List Int)
  resultTypes : List MType
  body : Block
  deriving DecidableEq, Repr

/-- `FuseRewrite::fuseApplyOps`: fuse two apply ops feeding the same side
of a combine into a single apply op, traced statement by statement from
the source. -/
def fuseApplyOps (applyOp1 applyOp2 : ApplyOp) (combineOp : CombineOp) :
    RewriteResult BuiltApply :=
  -- Check the shapes match
  if applyOp1.hasShape && applyOp2.hasShape &&
     (applyOp1.getLB ≠ applyOp2.getLB && applyOp1.getUB ≠ applyOp2.getUB) then
    ⟨[], [], [], ["expected shapes to match"], none⟩
  else
    -- Compute the new result types and the new operands
    let newResultTypes := applyOp1.resultTypes ++ applyOp2.resultTypes
    let newOperands := applyOp1.operands ++ applyOp2.operands
    -- Get return operations
    let returnOp1 := applyOp1.body.ret
    let returnOp2 := applyOp2.body.ret
    -- Check both apply operations have the same unroll configuration if any
    if returnOp1.getUnrollFac ≠ returnOp2.getUnrollFac ∨
       returnOp1.getUnrollDim ≠ returnOp2.getUnrollDim then
      ⟨[], [], [], ["expected matching unroll configurations"], none⟩
    else
      -- Introduce a new apply op and merge both bodies into it
      let numArgs := newOperands.length
      let repl1 := (List.range numArgs).take applyOp1.operands.length
      let repl2 := (List.range numArgs).drop (numArgs - applyOp2.operands.length)
      let shift := applyOp1.body.insts.length
      let newInsts := applyOp1.body.insts.map (remapInst repl1 0) ++
                      applyOp2.body.insts.map (remapInst repl2 shift)
      -- Introduce a new return op concatenating both return operand lists
      let newReturnOperands := returnOp1.operands.map (remapVRef repl1 0) ++
                               returnOp2.operands.map (remapVRef repl2 shift)
      let newRet : ReturnOp := ⟨newReturnOperands, returnOp1.unroll⟩
      let k := newResultTypes.length
      -- Replace all uses of the two apply operations
      ⟨[COp.applyOp newOperands applyOp1.lb applyOp1.ub newResultTypes,
        COp.returnOp returnOp1.unroll],
       [Replacement.byNewResults .applyOp1 ((List.range k).take applyOp1.results.length),
        Replacement.byNewResults .applyOp2 ((List.range k).drop (k - applyOp2.results.length))],
       [OpTag.returnOp1, OpTag.returnOp2],
       [],
       some ⟨newOperands, applyOp1.lb, applyOp1.ub, newResultTypes, ⟨newInsts, newRet⟩⟩⟩

/-!  `IfElseRewrite` (CombineToIfElsePass.cpp). -/

/-- `IfElseRewrite::permuteReturnOpOperands`: for every combine operand,
look up its result number in the producing apply and take the group of
`unrollFac` consecutive return operands starting at that result number
times the unroll factor. -/
def permuteReturnOpOperands (applyOp : ApplyOp) (combineOpOperands : List TVal)
    (returnOp : ReturnOp) : List VRef :=
  (combineOpOperands.map (fun value =>
    (returnOp.operands.drop
      (applyOp.results.findIdx (fun r => r.val == value.val) * returnOp.getUnrollFac)).take
      returnOp.getUnrollFac)).flatten

/-- One branch of the generated `scf.if`: the merged original apply body
and the `scf.yield` terminator operands, in the coordinates of the new
apply block. -/
structure YieldBlock where
  insts : List Inst
  yieldOperands : List VRef
  deriving DecidableEq, Repr

/-- The apply op built by the if/else lowering: the fused operand list,
the combine's bound pair and result types, the branch condition data
(`stencil.index` dimension and offset, the split constant, the `ult`
comparison), the `scf.if` with its two branches, and the final
`stencil.return` yielding the if results with the lower unroll
attribute. -/
structure IfElseApply where
  operands : List TVal
  lb : Option (List Int)
  ub : Option (List Int)
  resultTypes : List MType
  condDim : Nat
  condOffset : List Int
  condIndex : Int
  ifResultTypes : List MType
  thenBlock : YieldBlock
  elseBlock : YieldBlock
  returnUnroll : Option (List Int)
  deriving DecidableEq, Repr

/-- `IfElseRewrite::lowerStencilCombine`: lower a combine op and its two
producing apply ops to a single apply holding an `scf.if`, traced
statement by statement from the source (in particular the new apply and
the branch-condition ops are created before the unroll check). -/
def lowerStencilCombine (lowerOp upperOp : ApplyOp) (combineOp : CombineOp) :
    RewriteResult IfElseApply :=
  -- Compute the operands of the fused apply op
  let newOperands := lowerOp.operands ++ upperOp.operands
  -- Create a new apply op that updates the lower and upper domains
  let createdApply := COp.applyOp newOperands combineOp.lb combineOp.ub combineOp.resultTypes
  -- Introduce the branch condition
  let offset : List Int := List.replicate kIndexSize 0
  let createdIndex := COp.indexOp combineOp.dim offset
  let createdConst := COp.constantOp combineOp.index
  let createdCmp := COp.cmpIOpUlt
  -- Get the return operations and check the unroll factors match
  let lowerReturnOp := lowerOp.body.ret
  let upperReturnOp := upperOp.body.ret
  if lowerReturnOp.getUnrollFac ≠ upperReturnOp.getUnrollFac ∨
     lowerReturnOp.getUnrollDim ≠ upperReturnOp.getUnrollDim then
    ⟨[createdApply, createdIndex, createdConst, createdCmp], [], [],
     ["expected matching unroll configurations"], none⟩
  else
    -- Introduce the if else op and return the results
    let ifResultTypes := lowerReturnOp.operands.map VRef.ty
    let createdIf := COp.scfIfOp ifResultTypes
    let createdReturn := COp.returnOp lowerReturnOp.unroll
    -- Replace the return ops by yield ops
    let yieldLower := permuteReturnOpOperands lowerOp combineOp.lower lowerReturnOp
    let yieldUpper := permuteReturnOpOperands upperOp combineOp.upper upperReturnOp
    -- Move the computation to the new apply operation
    let replLower := (List.range newOperands.length).take lowerOp.operands.length
    let replUpper := (List.range newOperands.length).take upperOp.operands.length
    let thenBlock : YieldBlock :=
      ⟨lowerOp.body.insts.map (remapInst replLower 0), yieldLower.map (remapVRef replLower 0)⟩
    let elseBlock : YieldBlock :=
      ⟨upperOp.body.insts.map (remapInst replUpper 0), yieldUpper.map (remapVRef replUpper 0)⟩
    -- Remove the combine op and the attached apply ops
    ⟨[createdApply, createdIndex, createdConst, createdCmp, createdIf, createdReturn,
      COp.scfYieldOp, COp.scfYieldOp],
     [Replacement.byYield .lowerReturnOp yieldLower,
      Replacement.byYield .upperReturnOp yieldUpper,
      Replacement.byNewResults .theCombineOp (List.range combineOp.resultTypes.length)],
     [OpTag.upperOp, OpTag.lowerOp],
     [],
     some ⟨newOperands, combineOp.lb, combineOp.ub, combineOp.resultTypes,
           combineOp.dim, offset, combineOp.index, ifResultTypes, thenBlock, elseBlock,
           lowerReturnOp.unroll⟩⟩

/-!  `CombineOp::getLowerDefiningOps` / `getUpperDefiningOps` and the
match logic shared by the Mirror and IfElse patterns. -/

/-- The apply ops of the enclosing function; a value not produced by any
of them is produced by some other operation. -/
structure Env where
  applies : List ApplyOp

/-- Index of the apply op defining a value, if any. -/
def Env.definingApply (env : Env) (v : TVal) : Option Nat :=
  env.applies.findIdx? (fun a => a.results.any (fun r => r.val == v.val))

/-- `getLowerDefiningOps` / `getUpperDefiningOps`: the defining ops of the
primary and extra operands of one side, first occurrence order, without
duplicates. -/
def getDefiningOps (env : Env) (vals exts : List TVal) : List (Option Nat) :=
  (vals ++ exts).foldl
    (fun acc v =>
      let d := env.definingApply v
      if d ∈ acc then acc else acc ++ [d]) []

/-- `IfElseRewrite::matchAndRewrite`: fire only on combines without extra
operands whose two sides are each produced by exactly one apply op. -/
def IfElseRewrite.matchAndRewrite (env : Env) (combineOp : CombineOp) :
    RewriteResult IfElseApply :=
  -- Handle the extra operands first
  if !combineOp.lowerext.isEmpty || !combineOp.upperext.isEmpty then noRewrite
  else
    -- Handle multiple input operations first
    let definingLowerOps := getDefiningOps env combineOp.lower combineOp.lowerext
    let definingUpperOps := getDefiningOps env combineOp.upper combineOp.upperext
    if definingLowerOps.length ≠ 1 ∨ definingUpperOps.length ≠ 1 then noRewrite
    else
      -- Try to get the lower and the upper apply op
      match definingLowerOps.head?, definingUpperOps.head? with
      | some (some li), some (some ui) =>
        match env.applies.get? li, env.applies.get? ui with
        | some lowerOp, some upperOp => lowerStencilCombine lowerOp upperOp combineOp
        | _, _ => noRewrite
      | _, _ => noRewrite

/-!  `MirrorRewrite` (CombineToIfElsePass.cpp). -/

/-- `MirrorRewrite::addEmptyStores`: rebuild an apply op with one extra
result per mirrored value, implemented by an operand-less
`stencil.store_result` whose declared type wraps the needed element type,
appended `unrollFac` times to the return operand list.  Returns the
creation trace and the built apply. -/
def addEmptyStores (applyOp : ApplyOp) (range : List TVal) :
    List COp × BuiltApply :=
  -- Introduce the empty result types using the shape of the op
  let newResultTypes := applyOp.resultTypes ++ range.map (fun operand =>
      MType.temp operand.ty.elementType
        (applyFunElementWise applyOp.getUB applyOp.getLB (fun a b => a - b)))
  -- Replace the apply operation (identity argument mapping)
  let returnOp := applyOp.body.ret
  let numInsts := applyOp.body.insts.length
  -- Insert the empty stores right before the return
  let storeInsts := range.map (fun operand =>
      Inst.mk (InstKind.storeResult (MType.result operand.ty.elementType)) [])
  let newReturnOperands := returnOp.operands ++
      (range.enum.map (fun p =>
        List.replicate returnOp.getUnrollFac
          (VRef.mk (Atom.loc (numInsts + p.1)) (MType.result p.2.ty.elementType)))).flatten
  let newRet : ReturnOp := ⟨newReturnOperands, returnOp.unroll⟩
  ([COp.applyOp applyOp.operands applyOp.lb applyOp.ub newResultTypes] ++
   range.map (fun operand => COp.storeResultOp (MType.result operand.ty.elementType)) ++
   [COp.returnOp returnOp.unroll],
   ⟨applyOp.operands, applyOp.lb, applyOp.ub, newResultTypes,
    ⟨applyOp.body.insts ++ storeInsts, newRet⟩⟩)

/-- A result of one of the two applies rebuilt by the Mirror rewrite,
identified by its result index. -/
inductive NewVal
  | lowerRes (i : Nat)
  | upperRes (i : Nat)
  deriving DecidableEq, Repr

/-- The combine op rebuilt by the Mirror rewrite together with its two
rebuilt producer applies. -/
structure MirrorResult where
  newLowerOp : BuiltApply
  newUpperOp : BuiltApply
  newDim : Nat
  newIndex : Int
  newLower : List NewVal
  newUpper : List NewVal
  newLowerext : List NewVal
  newUpperext : List NewVal
  newLb : Option (List Int)
  newUb : Option (List Int)
  newResultTypes : List MType
  deriving DecidableEq, Repr

/-- `MirrorRewrite::appendOperandRange` for one value: the index of the
matching result of the old apply (its result count if absent, as
`std::distance(begin, end)`). -/
def findResultIndex (oldOp : ApplyOp) (v : TVal) : Nat :=
  oldOp.results.findIdx (fun r => r.val == v.val)

/-- `MirrorRewrite::mirrorExtraResults`: add the mirrored empty stores to
both applies and rebuild the combine without extra operands, traced from
the source. -/
def mirrorExtraResults (lowerOp upperOp : ApplyOp) (combineOp : CombineOp) :
    RewriteResult MirrorResult :=
  -- Compute the updated apply operations
  let lowerBuilt := addEmptyStores lowerOp combineOp.upperext
  let upperBuilt := addEmptyStores upperOp combineOp.lowerext
  let newLowerOp := lowerBuilt.2
  let newUpperOp := upperBuilt.2
  -- Append the lower and upper operands
  let newLowerOperands :=
    combineOp.lower.map (fun v => NewVal.lowerRes (findResultIndex lowerOp v)) ++
    -- Append the extra operands of the lower op
    combineOp.lowerext.map (fun v => NewVal.lowerRes (findResultIndex lowerOp v)) ++
    -- Append the empty stores of the lower op
    ((List.range newLowerOp.resultTypes.length).drop
      (newLowerOp.resultTypes.length - combineOp.upperext.length)).map NewVal.lowerRes
  let newUpperOperands :=
    combineOp.upper.map (fun v => NewVal.upperRes (findResultIndex upperOp v)) ++
    -- Append the empty stores of the upper op
    ((List.range newUpperOp.resultTypes.length).drop
      (newUpperOp.resultTypes.length - combineOp.lowerext.length)).map NewVal.upperRes ++
    -- Append the extra operands of the upper op
    combineOp.upperext.map (fun v => NewVal.upperRes (findResultIndex upperOp v))
  -- Introduce a new stencil combine operation that has no extra operands
  ⟨lowerBuilt.1 ++ upperBuilt.1 ++ [COp.combineOp combineOp.dim combineOp.index],
   [Replacement.byNewResults .theCombineOp (List.range combineOp.resultTypes.length)],
   [OpTag.lowerOp, OpTag.upperOp],
   [],
   some ⟨newLowerOp, newUpperOp, combineOp.dim, combineOp.index,
         newLowerOperands, newUpperOperands, [], [],
         combineOp.lb, combineOp.ub, combineOp.resultTypes⟩⟩

/-- `MirrorRewrite::matchAndRewrite`: fire only on combines with extra
operands whose two sides are each produced by exactly one apply op. -/
def MirrorRewrite.matchAndRewrite (env : Env) (combineOp : CombineOp) :
    RewriteResult MirrorResult :=
  -- Handling extra operands is not needed
  if combineOp.lowerext.isEmpty && combineOp.upperext.isEmpty then noRewrite
  else
    -- Handle multiple input operations first
    let definingLowerOps := getDefiningOps env combineOp.lower combineOp.lowerext
    let definingUpperOps := getDefiningOps env combineOp.upper combineOp.upperext
    if definingLowerOps.length ≠ 1 ∨ definingUpperOps.length ≠ 1 then noRewrite
    else
      -- Try to get the lower and the upper apply op
      match definingLowerOps.head?, definingUpperOps.head? with
      | some (some li), some (some ui) =>
        match env.applies.get? li, env.applies.get? ui with
        | some lowerOp, some upperOp => mirrorExtraResults lowerOp upperOp combineOp
        | _, _ => noRewrite
      | _, _ => noRewrite

/-!  `CombineToIfElsePass::runOnFunction`. -/

/-- The data of a function the pass driver inspects: the stencil-program
tag and, for every combine op, the use count of each of its operands. -/
structure FuncModel where
  isStencilProgram : Bool
  combineOperandUseCounts : List (List Nat)

/-- Observable actions of one `runOnFunction` invocation, in order. -/
inductive PassAction
  | emitOpError
  | signalPassFailure
  | applyPatterns
  deriving DecidableEq, Repr

/-- `CombineToIfElsePass::runOnFunction`: skip non-stencil functions,
abort with a fatal diagnostic when any combine operand has more than one
use, and only otherwise hand the function to the greedy pattern driver. -/
def runOnFunction (f : FuncModel) : List PassAction :=
  -- Only run on functions marked as stencil programs
  if !f.isStencilProgram then []
  else
    -- Check all combine op operands have one use
    let hasOperandsWithMultipleUses :=
      f.combineOperandUseCounts.any (fun c => c.any (fun n => n ≠ 1))
    if hasOperandsWithMultipleUses then
      [PassAction.emitOpError, PassAction.signalPassFailure]
    else
      [PassAction.applyPatterns]

/-!  The verifier of `stencil.store` from `StencilOps.td`, over the data
it inspects.  The two shape predicates whose implementation lives outside
the given sources are taken as inputs. -/

/-- The operation kinds the store verifier distinguishes. -/
inductive OpKind
  | applyK
  | combineK
  | castK
  | loadK
  | storeK
  | bufferK
  | otherK (tag : Nat)
  deriving DecidableEq, Repr

/-- The data of a `stencil.store` op and its surroundings that the
verifier inspects. -/
structure StoreOpModel where
  fieldDynamicShape : Bool
  fieldRank : Nat
  tempRank : Nat
  fieldAllocation : Nat
  tempAllocation : Nat
  fieldElementType : EType
  tempElementType : EType
  fieldLargerOrEqualShape : Bool
  tempLargerOrEqualShape : Bool
  tempDefiningOp : Option OpKind
  fieldUsers : List OpKind
  fieldDefiningOp : Option OpKind
  deriving DecidableEq, Repr

/-- The verifier of `stencil.store`, check for check from the source (each
failed check is an early `emitOpError` return). -/
def StoreOp.verify (s : StoreOpModel) : Except String Unit :=
  -- Check the field and result types
  if s.fieldDynamicShape then
    Except.error "expected fields to have static shape"
  else if s.fieldRank ≠ s.tempRank then
    Except.error "the field and temp types have different rank"
  else if s.fieldRank ≠ s.tempRank then
    Except.error "the field and temp types have different rank"
  else if s.fieldAllocation ≠ s.tempAllocation then
    Except.error "the field and temp types have different allocation"
  else if s.fieldElementType ≠ s.tempElementType then
    Except.error "the field and temp types have different element types"
  -- Ensure the shape matches the temp and result types
  else if !s.fieldLargerOrEqualShape then
    Except.error "expected the field type to be larger than the op shape"
  else if !s.tempLargerOrEqualShape then
    Except.error "expected the temp type to be larger than the op shape"
  else if ¬(s.tempDefiningOp = some OpKind.applyK ∨ s.tempDefiningOp = some OpKind.combineK) then
    Except.error "output temp not result of an apply or a combine op"
  else if s.fieldUsers.countP (fun op => op = OpKind.loadK) ≠ 0 then
    Except.error "an output cannot be an input"
  else if s.fieldUsers.countP (fun op => op = OpKind.storeK) ≠ 1 then
    Except.error "multiple stores to the same output"
  else if s.fieldDefiningOp ≠ some OpKind.castK then
    Except.error "expected the defining op of the field is a cast operation"
  else
    Except.ok ()

/-!  Spec-side definition used to compare the code's unroll factor with
the specification's wording. -/

/-- The unroll factor as the specification words it: "the product of an
optional per-axis unroll attribute (default factor 1 if absent)". -/
def specUnrollFactor (r : ReturnOp) : Nat :=
  match r.unroll with
  | none => 1
  | some u => u.prod.toNat

/-!  Concrete instances used by the closed witness and counterexample
theorems.  They realize the example scenario of the spec: two apply ops
over the bound pair `[0,0,0] : [64,64,60]`, each with one f64 result,
feeding a combine with `dim = 2`, `index = 30`. -/

/-- Temp type of the example scenario. -/
def exTempTy : MType := MType.temp EType.f64 [64, 64, 60]

/-- Example lower apply op: one operand (value 10), one f64 result
(value 1), a body with a single payload op reading block argument 0. -/
def exLowerOp : ApplyOp :=
  { operands := [⟨10, exTempTy⟩],
    lb := some [0, 0, 0],
    ub := some [64, 64, 30],
    results := [⟨1, exTempTy⟩],
    body := { insts := [⟨InstKind.generic 1, [⟨Atom.arg 0, exTempTy⟩]⟩],
              ret := { operands := [⟨Atom.loc 0, MType.result EType.f64⟩],
                       unroll := none } } }

/-- Example upper apply op: one operand (value 11, distinct from the lower
operand), one f64 result (value 2), a body reading block argument 0. -/
def exUpperOp : ApplyOp :=
  { operands := [⟨11, exTempTy⟩],
    lb := some [0, 0, 30],
    ub := some [64, 64, 60],
    results := [⟨2, exTempTy⟩],
    body := { insts := [⟨InstKind.generic 2, [⟨Atom.arg 0, exTempTy⟩]⟩],
              ret := { operands := [⟨Atom.loc 0, MType.result EType.f64⟩],
                       unroll := none } } }

/-- Example combine op over the two example applies, without extra
operands. -/
def exCombineOp : CombineOp :=
  { dim := 2,
    index := 30,
    lower := [⟨1, exTempTy⟩],
    upper := [⟨2, exTempTy⟩],
    lowerext := [],
    upperext := [],
    lb := some [0, 0, 0],
    ub := some [64, 64, 60],
    resultTypes := [exTempTy] }

/-- Example environment containing the two producer applies. -/
def exEnv : Env := ⟨[exLowerOp, exUpperOp]⟩

/-- A variant of the example lower apply whose return carries the unroll
attribute `[1, 1, 2]` (unroll factor 2, unroll dimension 2), mismatching
the example upper apply's default unroll configuration. -/
def exMismatchLowerOp : ApplyOp :=
  { exLowerOp with
    body := { insts := exLowerOp.body.insts,
              ret := { operands := [⟨Atom.loc 0, MType.result EType.f64⟩,
                                    ⟨Atom.loc 0, MType.result EType.f64⟩],
                       unroll := some [1, 1, 2] } } }

/-- Example combine with a non-empty `upperext`: the upper apply produces
two results (values 2 and 3) and the combine requests result 3 as an
extra value defined only on the upper side. -/
def exUpperOp2 : ApplyOp :=
  { operands := [⟨11, exTempTy⟩],
    lb := some [0, 0, 30],
    ub := some [64, 64, 60],
    results := [⟨2, exTempTy⟩, ⟨3, exTempTy⟩],
    body := { insts := [⟨InstKind.generic 2, [⟨Atom.arg 0, exTempTy⟩]⟩,
                        ⟨InstKind.generic 3, [⟨Atom.arg 0, exTempTy⟩]⟩],
              ret := { operands := [⟨Atom.loc 0, MType.result EType.f64⟩,
                                    ⟨Atom.loc 1, MType.result EType.f64⟩],
                       unroll := none } } }

/-- Example combine with extra operands for the Mirror rewrite. -/
def exCombineExtOp : CombineOp :=
  { dim := 2,
    index := 30,
    lower := [⟨1, exTempTy⟩],
    upper := [⟨2, exTempTy⟩],
    lowerext := [],
    upperext := [⟨3, exTempTy⟩],
    lb := some [0, 0, 0],
    ub := some [64, 64, 60],
    resultTypes := [exTempTy, exTempTy] }

/-- Example environment for the Mirror rewrite. -/
def exEnvExt : Env := ⟨[exLowerOp, exUpperOp2]⟩

/-- Example return op with unroll factor 2: two operands per apply
result. -/
def exReturnUnrolled : ReturnOp :=
  { operands := [⟨Atom.loc 0, MType.result EType.f64⟩,
                 ⟨Atom.loc 1, MType.result EType.f64⟩],
    unroll := some [1, 1, 2] }

/-- A variant of the example upper apply sharing the example lower
apply's bound pair, so that the fuse shape gate passes. -/
def exUpperSame : ApplyOp :=
  { exUpperOp with lb := some [0, 0, 0], ub := some [64, 64, 30] }

/-- Example store op data satisfying every check of the store verifier. -/
def exStoreOp : StoreOpModel :=
  { fieldDynamicShape := false,
    fieldRank := 3,
    tempRank := 3,
    fieldAllocation := 0,
    tempAllocation := 0,
    fieldElementType := EType.f64,
    tempElementType := EType.f64,
    fieldLargerOrEqualShape := true,
    tempLargerOrEqualShape := true,
    tempDefiningOp := some OpKind.applyK,
    fieldUsers := [OpKind.storeK],
    fieldDefiningOp := some OpKind.castK }

deriving instance DecidableEq for Except

/-!  Helper lemmas about the unroll factor computation. -/

theorem i64wrap_eq_of_bounds (x : Int) (h0 : 0 ≤ x) (h1 : x < 2 ^ 63) : i64wrap x = x := by
  have h63 : (2 : Int) ^ 63 = 9223372036854775808 := by norm_num
  have h64 : (2 : Int) ^ 64 = 18446744073709551616 := by norm_num
  unfold i64wrap
  rw [h63] at h1
  rw [h63, h64]
  rw [Int.emod_eq_of_lt (by omega) (by omega)]
  omega

theorem foldl_i64wrap_eq (u : List Int) (a : Int) (ha : 0 < a)
    (hx : ∀ x ∈ u, 0 < x) (hb : a * u.prod < 2 ^ 63) :
    u.foldl (fun p b => i64wrap (p * b)) a = a * u.prod := by
  induction u generalizing a with
  | nil => simp
  | cons b t ih =>
    have hbpos : 0 < b := hx b (List.mem_cons_self _ _)
    have htpos : ∀ x ∈ t, 0 < x := fun x hx' => hx x (List.mem_cons_of_mem _ hx')
    have htprod : 1 ≤ t.prod := by have := List.prod_pos htpos; omega
    have hab : 0 < a * b := mul_pos ha hbpos
    have hb' : a * b * t.prod < 2 ^ 63 := by
      rw [List.prod_cons, ← mul_assoc] at hb
      exact hb
    have hab63 : a * b < 2 ^ 63 :=
      lt_of_le_of_lt (le_mul_of_one_le_right hab.le htprod) hb'
    rw [List.foldl_cons, i64wrap_eq_of_bounds _ hab.le hab63, ih (a * b) hab htpos hb',
        List.prod_cons, mul_assoc]

theorem getUnrollFac_some (r : ReturnOp) (u : List Int) (hu : r.unroll = some u) :
    r.getUnrollFac = toU32 (u.foldl (fun a b => i64wrap (a * b)) 1) := by
  unfold ReturnOp.getUnrollFac
  rw [hu]

theorem specUnrollFactor_some (r : ReturnOp) (u : List Int) (hu : r.unroll = some u) :
    specUnrollFactor r = u.prod.toNat := by
  unfold specUnrollFactor
  rw [hu]

theorem getUnrollFac_eq_specUnrollFactor (r : ReturnOp)
    (hpos : ∀ u ∈ r.unroll, (∀ x ∈ u, 0 < x) ∧ u.prod < 2 ^ 32) :
    r.getUnrollFac = specUnrollFactor r := by
  cases hu : r.unroll with
  | none =>
    unfold ReturnOp.getUnrollFac specUnrollFactor
    rw [hu]
  | some u =>
    obtain ⟨hx, hp⟩ := hpos u (Option.mem_def.mpr hu)
    have hprodpos : 0 < u.prod := List.prod_pos hx
    have hfold : u.foldl (fun a b => i64wrap (a * b)) 1 = u.prod := by
      have h := foldl_i64wrap_eq u 1 one_pos hx
        (by rw [one_mul]; exact lt_of_lt_of_le hp (by norm_num))
      rwa [one_mul] at h
    rw [getUnrollFac_some r u hu, specUnrollFactor_some r u hu, hfold]
    unfold toU32
    rw [Int.emod_eq_of_lt hprodpos.le hp]

/-- Claim C8: the Return op verifier succeeds exactly when the operand
count equals the apply result count times the unroll factor (the product
of the optional unroll attribute's entries, 1 when absent) and each
operand's wrapped result type equals the element type of the corresponding
apply result, given result-typed operands and an unroll attribute whose
entries are positive with product below `2 ^ 32`. -/
theorem claim_return_verifier (applyResultTypes : List MType) (r : ReturnOp)
    (hods : ∀ o ∈ r.operands, o.ty.isResultType = true)
    (hpos : ∀ u ∈ r.unroll, (∀ x ∈ u, 0 < x) ∧ u.prod < 2 ^ 32) :
    ReturnOp.verify applyResultTypes r = true ↔
      (r.operands.length = specUnrollFactor r * applyResultTypes.length ∧
       ∀ i < applyResultTypes.length, ∀ j < specUnrollFactor r,
         (r.operands.getD (i * specUnrollFactor r + j) default).ty.castResultType =
           (applyResultTypes.getD i default).elementType) := by
  have hfac := getUnrollFac_eq_specUnrollFactor r hpos
  unfold ReturnOp.verify
  simp only [hfac, Bool.and_eq_true, List.all_eq_true, List.mem_range,
    decide_eq_true_eq, beq_iff_eq]
  constructor
  · rintro ⟨-, hlen, htys⟩
    exact ⟨hlen, fun i hi j hj => htys i hi j hj⟩
  · rintro ⟨hlen, htys⟩
    exact ⟨hods, hlen, fun i hi j hj => htys i hi j hj⟩

/-- Witness for claim C8: the characterization applied to an unrolled
return op with two operands and one apply result. -/
theorem claim_return_verifier_witness :
    (∀ o ∈ exReturnUnrolled.operands, o.ty.isResultType = true) ∧
    (ReturnOp.verify [exTempTy] exReturnUnrolled = true ↔
      (exReturnUnrolled.operands.length = specUnrollFactor exReturnUnrolled * [exTempTy].length ∧
       ∀ i < [exTempTy].length, ∀ j < specUnrollFactor exReturnUnrolled,
         (exReturnUnrolled.operands.getD (i * specUnrollFactor exReturnUnrolled + j) default).ty.castResultType =
           ([exTempTy].getD i default).elementType)) :=
  ⟨by decide, claim_return_verifier [exTempTy] exReturnUnrolled (by decide)
    (by intro u hu
        rw [Option.mem_def] at hu
        have he : u = [1, 1, 2] := by
          have : exReturnUnrolled.unroll = some [1, 1, 2] := rfl
          rw [this] at hu
          exact (Option.some.injEq _ _).mp hu.symm
        subst he
        exact ⟨by decide, by decide⟩)⟩

set_option maxHeartbeats 1000000 in
/-- Claim C9: the Store op verifier succeeds only if the stored temp is
produced by an Apply or Combine, the target field has no Load user and
exactly one Store user, and the field is produced by a Cast. -/
theorem claim_store_verifier (s : StoreOpModel)
    (h : StoreOp.verify s = Except.ok ()) :
    (s.tempDefiningOp = some OpKind.applyK ∨ s.tempDefiningOp = some OpKind.combineK) ∧
    s.fieldUsers.countP (fun op => op = OpKind.loadK) = 0 ∧
    s.fieldUsers.countP (fun op => op = OpKind.storeK) = 1 ∧
    s.fieldDefiningOp = some OpKind.castK := by
  unfold StoreOp.verify at h
  repeat' split at h
  any_goals cases h
  simp_all
  exact ⟨or_iff_not_imp_left.mpr (by assumption),
         fun a ha e => absurd (e ▸ ha) (by assumption)⟩

/-- Witness for claim C9: a store op satisfying the verifier. -/
theorem claim_store_verifier_witness :
    StoreOp.verify exStoreOp = Except.ok () ∧
    ((exStoreOp.tempDefiningOp = some OpKind.applyK ∨
      exStoreOp.tempDefiningOp = some OpKind.combineK) ∧
     exStoreOp.fieldUsers.countP (fun op => op = OpKind.loadK) = 0 ∧
     exStoreOp.fieldUsers.countP (fun op => op = OpKind.storeK) = 1 ∧
     exStoreOp.fieldDefiningOp = some OpKind.castK) :=
  ⟨by decide, claim_store_verifier exStoreOp (by decide)⟩

/-- Claim C4: on a stencil-program function containing a combine operand
with more than one use, the pass emits a fatal op error and signals pass
failure without handing the function to the pattern rewriter. -/
theorem claim_pass_precondition_abort (f : FuncModel) (c : List Nat) (n : Nat)
    (hprog : f.isStencilProgram = true)
    (hc : c ∈ f.combineOperandUseCounts) (hn : n ∈ c) (hmulti : 1 < n) :
    runOnFunction f = [PassAction.emitOpError, PassAction.signalPassFailure] ∧
    PassAction.applyPatterns ∉ runOnFunction f := by
  have hmany : f.combineOperandUseCounts.any (fun c => c.any (fun n => n ≠ 1)) = true := by
    simp only [List.any_eq_true, decide_eq_true_eq]
    exact ⟨c, hc, n, hn, by omega⟩
  unfold runOnFunction
  rw [hprog]
  simp only [Bool.not_true, Bool.false_eq_true, if_false, hmany, if_true]
  simp

/-- Witness for claim C4: a stencil program with one combine whose single
operand has two uses. -/
theorem claim_pass_precondition_abort_witness :
    runOnFunction ⟨true, [[2]]⟩ = [PassAction.emitOpError, PassAction.signalPassFailure] ∧
    PassAction.applyPatterns ∉ runOnFunction ⟨true, [[2]]⟩ :=
  claim_pass_precondition_abort ⟨true, [[2]]⟩ [2] 2 rfl (by decide) (by decide) (by decide)

/-!  Evaluation lemmas for `fuseApplyOps` and `lowerStencilCombine`. -/

theorem range_take_left (a b : Nat) : (List.range (a + b)).take a = List.range a := by
  rw [List.take_range, Nat.min_eq_left (Nat.le_add_right a b)]

theorem range_drop_left (a b : Nat) :
    (List.range (a + b)).drop (a + b - b) = (List.range b).map (a + ·) := by
  have h : a + b - b = a := by omega
  rw [h, List.range_add, List.drop_left' (List.length_range a)]

theorem fuseApplyOps_shape_fail (applyOp1 applyOp2 : ApplyOp) (combineOp : CombineOp)
    (h1 : applyOp1.hasShape = true) (h2 : applyOp2.hasShape = true)
    (hlb : applyOp1.getLB ≠ applyOp2.getLB) (hub : applyOp1.getUB ≠ applyOp2.getUB) :
    fuseApplyOps applyOp1 applyOp2 combineOp =
      ⟨[], [], [], ["expected shapes to match"], none⟩ := by
  unfold fuseApplyOps
  rw [if_pos (by simp [h1, h2, hlb, hub])]

theorem fuseApplyOps_unroll_fail (applyOp1 applyOp2 : ApplyOp) (combineOp : CombineOp)
    (hshape : applyOp1.hasShape = true → applyOp2.hasShape = true →
      applyOp1.getLB = applyOp2.getLB ∨ applyOp1.getUB = applyOp2.getUB)
    (hmism : applyOp1.body.ret.getUnrollFac ≠ applyOp2.body.ret.getUnrollFac ∨
             applyOp1.body.ret.getUnrollDim ≠ applyOp2.body.ret.getUnrollDim) :
    fuseApplyOps applyOp1 applyOp2 combineOp =
      ⟨[], [], [], ["expected matching unroll configurations"], none⟩ := by
  unfold fuseApplyOps
  dsimp only
  split
  · rename_i hc
    simp only [Bool.and_eq_true, decide_eq_true_eq] at hc
    obtain ⟨⟨ha, hb⟩, hne1, hne2⟩ := hc
    rcases hshape ha hb with h | h
    · exact absurd h hne1
    · exact absurd h hne2
  · rfl

theorem fuseApplyOps_success (applyOp1 applyOp2 : ApplyOp) (combineOp : CombineOp)
    (hshape : applyOp1.hasShape = true → applyOp2.hasShape = true →
      applyOp1.getLB = applyOp2.getLB ∨ applyOp1.getUB = applyOp2.getUB)
    (hfac : applyOp1.body.ret.getUnrollFac = applyOp2.body.ret.getUnrollFac)
    (hdim : applyOp1.body.ret.getUnrollDim = applyOp2.body.ret.getUnrollDim) :
    fuseApplyOps applyOp1 applyOp2 combineOp =
      ⟨[COp.applyOp (applyOp1.operands ++ applyOp2.operands) applyOp1.lb applyOp1.ub
          (applyOp1.resultTypes ++ applyOp2.resultTypes),
        COp.returnOp applyOp1.body.ret.unroll],
       [Replacement.byNewResults OpTag.applyOp1
          ((List.range (applyOp1.resultTypes ++ applyOp2.resultTypes).length).take
            applyOp1.results.length),
        Replacement.byNewResults OpTag.applyOp2
          ((List.range (applyOp1.resultTypes ++ applyOp2.resultTypes).length).drop
            ((applyOp1.resultTypes ++ applyOp2.resultTypes).length - applyOp2.results.length))],
       [OpTag.returnOp1, OpTag.returnOp2],
       [],
       some ⟨applyOp1.operands ++ applyOp2.operands, applyOp1.lb, applyOp1.ub,
             applyOp1.resultTypes ++ applyOp2.resultTypes,
             ⟨applyOp1.body.insts.map
                (remapInst ((List.range (applyOp1.operands ++ applyOp2.operands).length).take
                  applyOp1.operands.length) 0) ++
              applyOp2.body.insts.map
                (remapInst ((List.range (applyOp1.operands ++ applyOp2.operands).length).drop
                  ((applyOp1.operands ++ applyOp2.operands).length - applyOp2.operands.length))
                  applyOp1.body.insts.length),
              ⟨applyOp1.body.ret.operands.map
                 (remapVRef ((List.range (applyOp1.operands ++ applyOp2.operands).length).take
                   applyOp1.operands.length) 0) ++
               applyOp2.body.ret.operands.map
                 (remapVRef ((List.range (applyOp1.operands ++ applyOp2.operands).length).drop
                   ((applyOp1.operands ++ applyOp2.operands).length - applyOp2.operands.length))
                   applyOp1.body.insts.length),
               applyOp1.body.ret.unroll⟩⟩⟩⟩ := by
  unfold fuseApplyOps
  dsimp only
  split
  · rename_i hc
    simp only [Bool.and_eq_true, decide_eq_true_eq] at hc
    obtain ⟨⟨ha, hb⟩, hne1, hne2⟩ := hc
    rcases hshape ha hb with h | h
    · exact absurd h hne1
    · exact absurd h hne2
  · split
    · rename_i hc
      rcases hc with h | h
      · exact absurd hfac h
      · exact absurd hdim h
    · rfl

/-- Claim C10: with both shapes declared, the 'expected shapes to match'
warning fires exactly when the lower bounds differ and the upper bounds
differ; agreement on either bound lets the fuse proceed (successfully,
given matching unroll configurations) without any warning. -/
theorem claim_fuse_shape_gate (applyOp1 applyOp2 : ApplyOp) (combineOp : CombineOp)
    (h1 : applyOp1.hasShape = true) (h2 : applyOp2.hasShape = true) :
    (((fuseApplyOps applyOp1 applyOp2 combineOp).warnings = ["expected shapes to match"] ∧
      (fuseApplyOps applyOp1 applyOp2 combineOp).result = none) ↔
       (applyOp1.getLB ≠ applyOp2.getLB ∧ applyOp1.getUB ≠ applyOp2.getUB)) ∧
    ((applyOp1.getLB = applyOp2.getLB ∨ applyOp1.getUB = applyOp2.getUB) →
      applyOp1.body.ret.getUnrollFac = applyOp2.body.ret.getUnrollFac →
      applyOp1.body.ret.getUnrollDim = applyOp2.body.ret.getUnrollDim →
      (fuseApplyOps applyOp1 applyOp2 combineOp).warnings = [] ∧
      (fuseApplyOps applyOp1 applyOp2 combineOp).result.isSome = true) := by
  have gatePass : ∀ hsh : applyOp1.hasShape = true → applyOp2.hasShape = true →
      applyOp1.getLB = applyOp2.getLB ∨ applyOp1.getUB = applyOp2.getUB,
      ((fuseApplyOps applyOp1 applyOp2 combineOp).warnings = ["expected shapes to match"] ∧
        (fuseApplyOps applyOp1 applyOp2 combineOp).result = none) → False := by
    intro hsh hw
    by_cases hm : applyOp1.body.ret.getUnrollFac = applyOp2.body.ret.getUnrollFac ∧
        applyOp1.body.ret.getUnrollDim = applyOp2.body.ret.getUnrollDim
    · rw [fuseApplyOps_success _ _ _ hsh hm.1 hm.2] at hw
      simp at hw
    · have hm' : applyOp1.body.ret.getUnrollFac ≠ applyOp2.body.ret.getUnrollFac ∨
          applyOp1.body.ret.getUnrollDim ≠ applyOp2.body.ret.getUnrollDim := by tauto
      rw [fuseApplyOps_unroll_fail _ _ _ hsh hm'] at hw
      simp at hw
  by_cases hlb : applyOp1.getLB = applyOp2.getLB
  · have hsh : applyOp1.hasShape = true → applyOp2.hasShape = true →
        applyOp1.getLB = applyOp2.getLB ∨ applyOp1.getUB = applyOp2.getUB :=
      fun _ _ => Or.inl hlb
    constructor
    · constructor
      · intro hw
        exact absurd hw (gatePass hsh)
      · rintro ⟨hne1, -⟩
        exact absurd hlb hne1
    · intro hor hfac hdim
      rw [fuseApplyOps_success _ _ _ hsh hfac hdim]
      exact ⟨rfl, rfl⟩
  · by_cases hub : applyOp1.getUB = applyOp2.getUB
    · have hsh : applyOp1.hasShape = true → applyOp2.hasShape = true →
          applyOp1.getLB = applyOp2.getLB ∨ applyOp1.getUB = applyOp2.getUB :=
        fun _ _ => Or.inr hub
      constructor
      · constructor
        · intro hw
          exact absurd hw (gatePass hsh)
        · rintro ⟨-, hne2⟩
          exact absurd hub hne2
      · intro hor hfac hdim
        rw [fuseApplyOps_success _ _ _ hsh hfac hdim]
        exact ⟨rfl, rfl⟩
    · rw [fuseApplyOps_shape_fail _ _ _ h1 h2 hlb hub]
      constructor
      · exact ⟨fun _ => ⟨hlb, hub⟩, fun _ => ⟨rfl, rfl⟩⟩
      · intro hor
        rcases hor with h | h
        · exact absurd h hlb
        · exact absurd h hub

/-- Witness for claim C10: the gate characterization at the example
applies sharing the same lower bound. -/
theorem claim_fuse_shape_gate_witness :
    exLowerOp.hasShape = true ∧ exUpperSame.hasShape = true ∧
    ((((fuseApplyOps exLowerOp exUpperSame exCombineOp).warnings = ["expected shapes to match"] ∧
       (fuseApplyOps exLowerOp exUpperSame exCombineOp).result = none) ↔
        (exLowerOp.getLB ≠ exUpperSame.getLB ∧ exLowerOp.getUB ≠ exUpperSame.getUB)) ∧
     ((exLowerOp.getLB = exUpperSame.getLB ∨ exLowerOp.getUB = exUpperSame.getUB) →
       exLowerOp.body.ret.getUnrollFac = exUpperSame.body.ret.getUnrollFac →
       exLowerOp.body.ret.getUnrollDim = exUpperSame.body.ret.getUnrollDim →
       (fuseApplyOps exLowerOp exUpperSame exCombineOp).warnings = [] ∧
       (fuseApplyOps exLowerOp exUpperSame exCombineOp).result.isSome = true)) :=
  ⟨by decide, by decide, claim_fuse_shape_gate exLowerOp exUpperSame exCombineOp rfl rfl⟩

/-- Claim C7: a successful fuse builds one apply whose result types are
the first op's followed by the second op's, whose operands are the first
op's followed by the second op's, and redirects the first op's result `i`
to new result `i` and the second op's result `j` to new result `k1 + j`. -/
theorem claim_fuse_structure (applyOp1 applyOp2 : ApplyOp) (combineOp : CombineOp)
    (hshape : applyOp1.hasShape = true → applyOp2.hasShape = true →
      applyOp1.getLB = applyOp2.getLB ∨ applyOp1.getUB = applyOp2.getUB)
    (hfac : applyOp1.body.ret.getUnrollFac = applyOp2.body.ret.getUnrollFac)
    (hdim : applyOp1.body.ret.getUnrollDim = applyOp2.body.ret.getUnrollDim) :
    ∃ fused : BuiltApply,
      (fuseApplyOps applyOp1 applyOp2 combineOp).result = some fused ∧
      fused.resultTypes = applyOp1.resultTypes ++ applyOp2.resultTypes ∧
      fused.resultTypes.length = applyOp1.results.length + applyOp2.results.length ∧
      fused.operands = applyOp1.operands ++ applyOp2.operands ∧
      fused.operands.length = applyOp1.operands.length + applyOp2.operands.length ∧
      (fuseApplyOps applyOp1 applyOp2 combineOp).replaced =
        [Replacement.byNewResults OpTag.applyOp1 (List.range applyOp1.results.length),
         Replacement.byNewResults OpTag.applyOp2
           ((List.range applyOp2.results.length).map (applyOp1.results.length + ·))] := by
  have hlen : (applyOp1.resultTypes ++ applyOp2.resultTypes).length =
      applyOp1.results.length + applyOp2.results.length := by
    simp [ApplyOp.resultTypes]
  rw [fuseApplyOps_success _ _ _ hshape hfac hdim]
  refine ⟨_, rfl, rfl, hlen, rfl, by simp, ?_⟩
  rw [hlen, range_take_left, range_drop_left]

/-- Witness for claim C7 at the example applies. -/
theorem claim_fuse_structure_witness :
    ∃ fused : BuiltApply,
      (fuseApplyOps exLowerOp exUpperSame exCombineOp).result = some fused ∧
      fused.resultTypes = exLowerOp.resultTypes ++ exUpperSame.resultTypes ∧
      fused.resultTypes.length = exLowerOp.results.length + exUpperSame.results.length ∧
      fused.operands = exLowerOp.operands ++ exUpperSame.operands ∧
      fused.operands.length = exLowerOp.operands.length + exUpperSame.operands.length ∧
      (fuseApplyOps exLowerOp exUpperSame exCombineOp).replaced =
        [Replacement.byNewResults OpTag.applyOp1 (List.range exLowerOp.results.length),
         Replacement.byNewResults OpTag.applyOp2
           ((List.range exUpperSame.results.length).map (exLowerOp.results.length + ·))] :=
  claim_fuse_structure exLowerOp exUpperSame exCombineOp (fun _ _ => Or.inl rfl) rfl rfl

theorem lowerStencilCombine_unroll_fail (lowerOp upperOp : ApplyOp) (combineOp : CombineOp)
    (hmism : lowerOp.body.ret.getUnrollFac ≠ upperOp.body.ret.getUnrollFac ∨
             lowerOp.body.ret.getUnrollDim ≠ upperOp.body.ret.getUnrollDim) :
    lowerStencilCombine lowerOp upperOp combineOp =
      ⟨[COp.applyOp (lowerOp.operands ++ upperOp.operands) combineOp.lb combineOp.ub
          combineOp.resultTypes,
        COp.indexOp combineOp.dim (List.replicate kIndexSize 0),
        COp.constantOp combineOp.index, COp.cmpIOpUlt],
       [], [], ["expected matching unroll configurations"], none⟩ := by
  unfold lowerStencilCombine
  dsimp only
  split
  · rfl
  · rename_i hok
    exact absurd hmism hok

/-- Claim C3 (amended): on a combine whose producer applies disagree in
unroll factor or unroll dimension the detecting rule warns and fails; the
Fuse rule touches nothing, while the IfElse rule has already created the
new apply op and the three branch-condition ops before its check, and
those creations are not undone. -/
theorem claim_unroll_mismatch_behavior (applyOp1 applyOp2 : ApplyOp) (combineOp : CombineOp)
    (hmism : applyOp1.body.ret.getUnrollFac ≠ applyOp2.body.ret.getUnrollFac ∨
             applyOp1.body.ret.getUnrollDim ≠ applyOp2.body.ret.getUnrollDim)
    (hshape : applyOp1.hasShape = true → applyOp2.hasShape = true →
      applyOp1.getLB = applyOp2.getLB ∨ applyOp1.getUB = applyOp2.getUB) :
    fuseApplyOps applyOp1 applyOp2 combineOp =
      ⟨[], [], [], ["expected matching unroll configurations"], none⟩ ∧
    lowerStencilCombine applyOp1 applyOp2 combineOp =
      ⟨[COp.applyOp (applyOp1.operands ++ applyOp2.operands) combineOp.lb combineOp.ub
          combineOp.resultTypes,
        COp.indexOp combineOp.dim (List.replicate kIndexSize 0),
        COp.constantOp combineOp.index, COp.cmpIOpUlt],
       [], [], ["expected matching unroll configurations"], none⟩ :=
  ⟨fuseApplyOps_unroll_fail applyOp1 applyOp2 combineOp hshape hmism,
   lowerStencilCombine_unroll_fail applyOp1 applyOp2 combineOp hmism⟩

/-- Witness for the amended claim C3 at the mismatched example applies. -/
theorem claim_unroll_mismatch_behavior_witness :
    fuseApplyOps exMismatchLowerOp exUpperSame exCombineOp =
      ⟨[], [], [], ["expected matching unroll configurations"], none⟩ ∧
    lowerStencilCombine exMismatchLowerOp exUpperSame exCombineOp =
      ⟨[COp.applyOp (exMismatchLowerOp.operands ++ exUpperSame.operands) exCombineOp.lb
          exCombineOp.ub exCombineOp.resultTypes,
        COp.indexOp exCombineOp.dim (List.replicate kIndexSize 0),
        COp.constantOp exCombineOp.index, COp.cmpIOpUlt],
       [], [], ["expected matching unroll configurations"], none⟩ :=
  claim_unroll_mismatch_behavior exMismatchLowerOp exUpperSame exCombineOp
    (by decide) (fun _ _ => Or.inl (by decide))

/-- Counterexample to claim C3 as stated: on the mismatched example the
IfElse rule emits the warning and returns failure, but the graph is not
exactly as before the attempt: four operations were created. -/
theorem claim_unroll_mismatch_counterexample :
    (lowerStencilCombine exMismatchLowerOp exUpperSame exCombineOp).warnings =
      ["expected matching unroll configurations"] ∧
    (lowerStencilCombine exMismatchLowerOp exUpperSame exCombineOp).result = none ∧
    (lowerStencilCombine exMismatchLowerOp exUpperSame exCombineOp).created ≠ [] := by
  decide

/-!  Evaluation of the IfElse lowering on matching unroll configurations. -/

theorem repl_take_front (l u : List TVal) :
    (List.range (l ++ u).length).take l.length = List.range l.length := by
  rw [List.length_append, range_take_left]

theorem repl_take_front' (l u : List TVal) :
    (List.range (l ++ u).length).take u.length = List.range u.length := by
  rw [List.length_append, List.take_range, Nat.min_eq_left (Nat.le_add_left _ _)]

theorem lowerStencilCombine_success (lowerOp upperOp : ApplyOp) (combineOp : CombineOp)
    (hfac : lowerOp.body.ret.getUnrollFac = upperOp.body.ret.getUnrollFac)
    (hdim : lowerOp.body.ret.getUnrollDim = upperOp.body.ret.getUnrollDim) :
    lowerStencilCombine lowerOp upperOp combineOp =
      ⟨[COp.applyOp (lowerOp.operands ++ upperOp.operands) combineOp.lb combineOp.ub
          combineOp.resultTypes,
        COp.indexOp combineOp.dim (List.replicate kIndexSize 0),
        COp.constantOp combineOp.index, COp.cmpIOpUlt,
        COp.scfIfOp (lowerOp.body.ret.operands.map VRef.ty),
        COp.returnOp lowerOp.body.ret.unroll, COp.scfYieldOp, COp.scfYieldOp],
       [Replacement.byYield OpTag.lowerReturnOp
          (permuteReturnOpOperands lowerOp combineOp.lower lowerOp.body.ret),
        Replacement.byYield OpTag.upperReturnOp
          (permuteReturnOpOperands upperOp combineOp.upper upperOp.body.ret),
        Replacement.byNewResults OpTag.theCombineOp (List.range combineOp.resultTypes.length)],
       [OpTag.upperOp, OpTag.lowerOp],
       [],
       some ⟨lowerOp.operands ++ upperOp.operands, combineOp.lb, combineOp.ub,
             combineOp.resultTypes, combineOp.dim, List.replicate kIndexSize 0,
             combineOp.index, lowerOp.body.ret.operands.map VRef.ty,
             ⟨lowerOp.body.insts.map
                (remapInst ((List.range (lowerOp.operands ++ upperOp.operands).length).take
                  lowerOp.operands.length) 0),
              (permuteReturnOpOperands lowerOp combineOp.lower lowerOp.body.ret).map
                (remapVRef ((List.range (lowerOp.operands ++ upperOp.operands).length).take
                  lowerOp.operands.length) 0)⟩,
             ⟨upperOp.body.insts.map
                (remapInst ((List.range (lowerOp.operands ++ upperOp.operands).length).take
                  upperOp.operands.length) 0),
              (permuteReturnOpOperands upperOp combineOp.upper upperOp.body.ret).map
                (remapVRef ((List.range (lowerOp.operands ++ upperOp.operands).length).take
                  upperOp.operands.length) 0)⟩,
             lowerOp.body.ret.unroll⟩⟩ := by
  unfold lowerStencilCombine
  dsimp only
  split
  · rename_i hc
    rcases hc with h | h
    · exact absurd hfac h
    · exact absurd hdim h
  · rfl

theorem ifElse_matchAndRewrite_fires (env : Env) (combineOp : CombineOp)
    (li ui : Nat) (lowerOp upperOp : ApplyOp)
    (hlext : combineOp.lowerext = []) (huext : combineOp.upperext = [])
    (hdl : getDefiningOps env combineOp.lower combineOp.lowerext = [some li])
    (hdu : getDefiningOps env combineOp.upper combineOp.upperext = [some ui])
    (hli : env.applies.get? li = some lowerOp)
    (hui : env.applies.get? ui = some upperOp) :
    IfElseRewrite.matchAndRewrite env combineOp =
      lowerStencilCombine lowerOp upperOp combineOp := by
  unfold IfElseRewrite.matchAndRewrite
  rw [if_neg (by simp [hlext, huext])]
  dsimp only
  rw [hdl, hdu]
  rw [if_neg (by simp)]
  simp only [List.head?_cons]
  rw [hli, hui]

/-- Claim C1: on a combine with empty extra operand lists whose two sides
are each produced by exactly one apply op with matching unroll
configurations, the IfElse rewrite removes the combine and replaces it
with exactly one new apply whose bound pair is the combine's, whose body
begins with a `stencil.index` along the combine's dimension at offset
`[0, 0, 0]` compared unsigned-less-than against the combine's split
index, and whose two conditional branches hold the original lower and
upper apply bodies. -/
theorem claim_ifelse_rewrite_structure (env : Env) (combineOp : CombineOp)
    (li ui : Nat) (lowerOp upperOp : ApplyOp)
    (hlext : combineOp.lowerext = []) (huext : combineOp.upperext = [])
    (hdl : getDefiningOps env combineOp.lower combineOp.lowerext = [some li])
    (hdu : getDefiningOps env combineOp.upper combineOp.upperext = [some ui])
    (hli : env.applies.get? li = some lowerOp)
    (hui : env.applies.get? ui = some upperOp)
    (hfac : lowerOp.body.ret.getUnrollFac = upperOp.body.ret.getUnrollFac)
    (hdim : lowerOp.body.ret.getUnrollDim = upperOp.body.ret.getUnrollDim) :
    ∃ r : IfElseApply,
      (IfElseRewrite.matchAndRewrite env combineOp).result = some r ∧
      (IfElseRewrite.matchAndRewrite env combineOp).created.countP COp.isApplyOp = 1 ∧
      (IfElseRewrite.matchAndRewrite env combineOp).created.take 4 =
        [COp.applyOp (lowerOp.operands ++ upperOp.operands) combineOp.lb combineOp.ub
           combineOp.resultTypes,
         COp.indexOp combineOp.dim [0, 0, 0],
         COp.constantOp combineOp.index, COp.cmpIOpUlt] ∧
      (IfElseRewrite.matchAndRewrite env combineOp).replaced =
        [Replacement.byYield OpTag.lowerReturnOp
           (permuteReturnOpOperands lowerOp combineOp.lower lowerOp.body.ret),
         Replacement.byYield OpTag.upperReturnOp
           (permuteReturnOpOperands upperOp combineOp.upper upperOp.body.ret),
         Replacement.byNewResults OpTag.theCombineOp
           (List.range combineOp.resultTypes.length)] ∧
      (IfElseRewrite.matchAndRewrite env combineOp).erased = [OpTag.upperOp, OpTag.lowerOp] ∧
      r.lb = combineOp.lb ∧ r.ub = combineOp.ub ∧
      r.condDim = combineOp.dim ∧ r.condOffset = [0, 0, 0] ∧
      r.condIndex = combineOp.index ∧
      r.thenBlock.insts =
        lowerOp.body.insts.map (remapInst (List.range lowerOp.operands.length) 0) ∧
      r.elseBlock.insts =
        upperOp.body.insts.map (remapInst (List.range upperOp.operands.length) 0) := by
  rw [ifElse_matchAndRewrite_fires env combineOp li ui lowerOp upperOp hlext huext hdl hdu
        hli hui,
      lowerStencilCombine_success lowerOp upperOp combineOp hfac hdim]
  refine ⟨_, rfl, rfl, rfl, rfl, rfl, rfl, rfl, rfl, rfl, rfl, ?_, ?_⟩
  · rw [repl_take_front]
  · rw [repl_take_front']

/-- Witness for claim C1 at the example combine. -/
theorem claim_ifelse_rewrite_structure_witness :
    ∃ r : IfElseApply,
      (IfElseRewrite.matchAndRewrite exEnv exCombineOp).result = some r ∧
      (IfElseRewrite.matchAndRewrite exEnv exCombineOp).created.countP COp.isApplyOp = 1 ∧
      (IfElseRewrite.matchAndRewrite exEnv exCombineOp).created.take 4 =
        [COp.applyOp (exLowerOp.operands ++ exUpperOp.operands) exCombineOp.lb exCombineOp.ub
           exCombineOp.resultTypes,
         COp.indexOp exCombineOp.dim [0, 0, 0],
         COp.constantOp exCombineOp.index, COp.cmpIOpUlt] ∧
      (IfElseRewrite.matchAndRewrite exEnv exCombineOp).replaced =
        [Replacement.byYield OpTag.lowerReturnOp
           (permuteReturnOpOperands exLowerOp exCombineOp.lower exLowerOp.body.ret),
         Replacement.byYield OpTag.upperReturnOp
           (permuteReturnOpOperands exUpperOp exCombineOp.upper exUpperOp.body.ret),
         Replacement.byNewResults OpTag.theCombineOp
           (List.range exCombineOp.resultTypes.length)] ∧
      (IfElseRewrite.matchAndRewrite exEnv exCombineOp).erased = [OpTag.upperOp, OpTag.lowerOp] ∧
      r.lb = exCombineOp.lb ∧ r.ub = exCombineOp.ub ∧
      r.condDim = exCombineOp.dim ∧ r.condOffset = [0, 0, 0] ∧
      r.condIndex = exCombineOp.index ∧
      r.thenBlock.insts =
        exLowerOp.body.insts.map (remapInst (List.range exLowerOp.operands.length) 0) ∧
      r.elseBlock.insts =
        exUpperOp.body.insts.map (remapInst (List.range exUpperOp.operands.length) 0) :=
  claim_ifelse_rewrite_structure exEnv exCombineOp 0 1 exLowerOp exUpperOp rfl rfl
    (by decide) (by decide) rfl rfl rfl rfl

/-- Claim C2: at the example combine the lowered apply's operand list is
the lower op's operands followed by the upper op's, and the then-branch
body reads new-apply argument 0 (the lower operand slot); but the
else-branch body also reads argument 0 instead of argument 1, the slot
that holds the upper op's operand, diverging from the claimed remapping
of the else branch onto the upper operands. -/
theorem claim_ifelse_else_branch_remap :
    (lowerStencilCombine exLowerOp exUpperOp exCombineOp).result.map IfElseApply.operands =
      some (exLowerOp.operands ++ exUpperOp.operands) ∧
    (lowerStencilCombine exLowerOp exUpperOp exCombineOp).result.map
        (fun r => r.thenBlock.insts) =
      some [⟨InstKind.generic 1, [⟨Atom.arg 0, exTempTy⟩]⟩] ∧
    (lowerStencilCombine exLowerOp exUpperOp exCombineOp).result.map
        (fun r => r.elseBlock.insts) =
      some [⟨InstKind.generic 2, [⟨Atom.arg 0, exTempTy⟩]⟩] ∧
    (lowerStencilCombine exLowerOp exUpperOp exCombineOp).result.map
        (fun r => r.elseBlock.insts) ≠
      some (exUpperOp.body.insts.map (remapInst [1] 0)) ∧
    exUpperOp.body.insts.map (remapInst [1] 0) =
      [⟨InstKind.generic 2, [⟨Atom.arg 1, exTempTy⟩]⟩] := by
  decide

/-!  Evaluation of the Mirror rewrite. -/

theorem mirror_matchAndRewrite_fires (env : Env) (combineOp : CombineOp)
    (li ui : Nat) (lowerOp upperOp : ApplyOp)
    (hext : combineOp.lowerext ≠ [] ∨ combineOp.upperext ≠ [])
    (hdl : getDefiningOps env combineOp.lower combineOp.lowerext = [some li])
    (hdu : getDefiningOps env combineOp.upper combineOp.upperext = [some ui])
    (hli : env.applies.get? li = some lowerOp)
    (hui : env.applies.get? ui = some upperOp) :
    MirrorRewrite.matchAndRewrite env combineOp =
      mirrorExtraResults lowerOp upperOp combineOp := by
  unfold MirrorRewrite.matchAndRewrite
  rw [if_neg (by
    rcases hext with h | h <;> simp [List.isEmpty_iff, h])]
  dsimp only
  rw [hdl, hdu]
  rw [if_neg (by simp)]
  simp only [List.head?_cons]
  rw [hli, hui]

/-- Claim C6: on a combine with extra operands whose two sides are each
produced by exactly one apply op, the Mirror rewrite replaces the combine
by a new combine with empty extra operand lists and the original result
types (hence result count and ordering), and for each extra value of one
side it appends to the opposite apply an operand-less store result whose
declared type wraps the needed element type, replicated unroll-factor
times at the end of that apply's return operands. -/
theorem claim_mirror_structure (env : Env) (combineOp : CombineOp)
    (li ui : Nat) (lowerOp upperOp : ApplyOp)
    (hext : combineOp.lowerext ≠ [] ∨ combineOp.upperext ≠ [])
    (hdl : getDefiningOps env combineOp.lower combineOp.lowerext = [some li])
    (hdu : getDefiningOps env combineOp.upper combineOp.upperext = [some ui])
    (hli : env.applies.get? li = some lowerOp)
    (hui : env.applies.get? ui = some upperOp) :
    ∃ m : MirrorResult,
      (MirrorRewrite.matchAndRewrite env combineOp).result = some m ∧
      m.newLowerext = [] ∧ m.newUpperext = [] ∧
      m.newResultTypes = combineOp.resultTypes ∧
      m.newDim = combineOp.dim ∧ m.newIndex = combineOp.index ∧
      (MirrorRewrite.matchAndRewrite env combineOp).replaced =
        [Replacement.byNewResults OpTag.theCombineOp
          (List.range combineOp.resultTypes.length)] ∧
      m.newLowerOp.body.insts = lowerOp.body.insts ++
        combineOp.upperext.map (fun o =>
          ⟨InstKind.storeResult (MType.result o.ty.elementType), []⟩) ∧
      m.newLowerOp.resultTypes = lowerOp.resultTypes ++
        combineOp.upperext.map (fun o => MType.temp o.ty.elementType
          (applyFunElementWise lowerOp.getUB lowerOp.getLB (fun a b => a - b))) ∧
      m.newLowerOp.body.ret.operands = lowerOp.body.ret.operands ++
        (combineOp.upperext.enum.map (fun p =>
          List.replicate lowerOp.body.ret.getUnrollFac
            (VRef.mk (Atom.loc (lowerOp.body.insts.length + p.1))
              (MType.result p.2.ty.elementType)))).flatten ∧
      m.newUpperOp.body.insts = upperOp.body.insts ++
        combineOp.lowerext.map (fun o =>
          ⟨InstKind.storeResult (MType.result o.ty.elementType), []⟩) ∧
      m.newUpperOp.resultTypes = upperOp.resultTypes ++
        combineOp.lowerext.map (fun o => MType.temp o.ty.elementType
          (applyFunElementWise upperOp.getUB upperOp.getLB (fun a b => a - b))) ∧
      m.newUpperOp.body.ret.operands = upperOp.body.ret.operands ++
        (combineOp.lowerext.enum.map (fun p =>
          List.replicate upperOp.body.ret.getUnrollFac
            (VRef.mk (Atom.loc (upperOp.body.insts.length + p.1))
              (MType.result p.2.ty.elementType)))).flatten := by
  rw [mirror_matchAndRewrite_fires env combineOp li ui lowerOp upperOp hext hdl hdu hli hui]
  unfold mirrorExtraResults addEmptyStores
  dsimp only
  exact ⟨_, rfl, rfl, rfl, rfl, rfl, rfl, rfl, rfl, rfl, rfl, rfl, rfl, rfl⟩

/-- Witness for claim C6 at the example combine with one upper-side extra
operand. -/
theorem claim_mirror_structure_witness :
    ∃ m : MirrorResult,
      (MirrorRewrite.matchAndRewrite exEnvExt exCombineExtOp).result = some m ∧
      m.newLowerext = [] ∧ m.newUpperext = [] ∧
      m.newResultTypes = exCombineExtOp.resultTypes ∧
      m.newDim = exCombineExtOp.dim ∧ m.newIndex = exCombineExtOp.index ∧
      (MirrorRewrite.matchAndRewrite exEnvExt exCombineExtOp).replaced =
        [Replacement.byNewResults OpTag.theCombineOp
          (List.range exCombineExtOp.resultTypes.length)] ∧
      m.newLowerOp.body.insts = exLowerOp.body.insts ++
        exCombineExtOp.upperext.map (fun o =>
          ⟨InstKind.storeResult (MType.result o.ty.elementType), []⟩) ∧
      m.newLowerOp.resultTypes = exLowerOp.resultTypes ++
        exCombineExtOp.upperext.map (fun o => MType.temp o.ty.elementType
          (applyFunElementWise exLowerOp.getUB exLowerOp.getLB (fun a b => a - b))) ∧
      m.newLowerOp.body.ret.operands = exLowerOp.body.ret.operands ++
        (exCombineExtOp.upperext.enum.map (fun p =>
          List.replicate exLowerOp.body.ret.getUnrollFac
            (VRef.mk (Atom.loc (exLowerOp.body.insts.length + p.1))
              (MType.result p.2.ty.elementType)))).flatten ∧
      m.newUpperOp.body.insts = exUpperOp2.body.insts ++
        exCombineExtOp.lowerext.map (fun o =>
          ⟨InstKind.storeResult (MType.result o.ty.elementType), []⟩) ∧
      m.newUpperOp.resultTypes = exUpperOp2.resultTypes ++
        exCombineExtOp.lowerext.map (fun o => MType.temp o.ty.elementType
          (applyFunElementWise exUpperOp2.getUB exUpperOp2.getLB (fun a b => a - b))) ∧
      m.newUpperOp.body.ret.operands = exUpperOp2.body.ret.operands ++
        (exCombineExtOp.lowerext.enum.map (fun p =>
          List.replicate exUpperOp2.body.ret.getUnrollFac
            (VRef.mk (Atom.loc (exUpperOp2.body.insts.length + p.1))
              (MType.result p.2.ty.elementType)))).flatten :=
  claim_mirror_structure exEnvExt exCombineExtOp 0 1 exLowerOp exUpperOp2
    (Or.inr (by decide)) (by decide) (by decide) rfl rfl

/-!  The yield permutation of the IfElse lowering. -/

theorem flatten_drop_take_of_length {α : Type} (L : List (List α)) (k : Nat)
    (hL : ∀ l ∈ L, l.length = k) (i : Nat) (hi : i < L.length) :
    (L.flatten.drop (i * k)).take k = L.getD i [] := by
  induction L generalizing i with
  | nil => simp at hi
  | cons hd tl ih =>
    have hhd : hd.length = k := hL hd (List.mem_cons_self _ _)
    have htl : ∀ l ∈ tl, l.length = k := fun l hl => hL l (List.mem_cons_of_mem _ hl)
    cases i with
    | zero =>
      rw [List.flatten_cons, Nat.zero_mul, List.drop_zero, List.take_left' hhd,
          List.getD_cons_zero]
    | succ n =>
      have hmul : (n + 1) * k = hd.length + n * k := by rw [hhd]; ring
      rw [List.flatten_cons, hmul, List.drop_append, List.getD_cons_succ]
      exact ih htl n (by simpa using hi)

theorem verify_length (rts : List MType) (r : ReturnOp)
    (hver : ReturnOp.verify rts r = true) :
    r.operands.length = r.getUnrollFac * rts.length := by
  unfold ReturnOp.verify at hver
  simp only [Bool.and_eq_true, decide_eq_true_eq] at hver
  exact hver.2.1

theorem eq_result_of_isResultType (t : MType) (h : t.isResultType = true) :
    t = MType.result t.castResultType := by
  cases t <;> first | rfl | simp_all [MType.isResultType]

theorem verify_group_types (rts : List MType) (r : ReturnOp)
    (hver : ReturnOp.verify rts r = true) (j : Nat) (hj : j < rts.length) :
    ((r.operands.drop (j * r.getUnrollFac)).take r.getUnrollFac).map VRef.ty =
      List.replicate r.getUnrollFac (MType.result ((rts.getD j default).elementType)) := by
  have hver' := hver
  unfold ReturnOp.verify at hver'
  simp only [Bool.and_eq_true, List.all_eq_true, List.mem_range, decide_eq_true_eq,
    beq_iff_eq] at hver'
  obtain ⟨hods, hlen, htys⟩ := hver'
  have hle : j * r.getUnrollFac + r.getUnrollFac ≤ r.operands.length := by
    rw [hlen]
    calc j * r.getUnrollFac + r.getUnrollFac = (j + 1) * r.getUnrollFac := by ring
      _ ≤ rts.length * r.getUnrollFac := Nat.mul_le_mul_right _ (Nat.succ_le_of_lt hj)
      _ = r.getUnrollFac * rts.length := Nat.mul_comm _ _
  apply List.ext_getElem
  · simp only [List.length_map, List.length_take, List.length_drop, List.length_replicate]
    exact Nat.min_eq_left (Nat.le_sub_of_add_le (by rw [Nat.add_comm]; exact hle))
  · intro n h1 h2
    have hn : n < r.getUnrollFac := by
      simp only [List.length_map, List.length_take] at h1
      omega
    have hidx : j * r.getUnrollFac + n < r.operands.length := by omega
    rw [List.getElem_map, List.getElem_take, List.getElem_drop, List.getElem_replicate]
    have hcast := htys j hj n hn
    rw [List.getD_eq_getElem _ _ hidx] at hcast
    have hmem := hods _ (List.getElem_mem hidx)
    rw [eq_result_of_isResultType _ hmem, hcast]

theorem findIdx_val_eq (l : List TVal) (v : TVal) (j : Nat) (hj : j < l.length)
    (hv : l[j] = v) (hnd : (l.map TVal.val).Nodup) :
    l.findIdx (fun r => r.val == v.val) = j := by
  rw [List.findIdx_eq hj]
  constructor
  · simp [hv]
  · intro k hk
    have hkl : k < l.length := lt_trans hk hj
    rw [Bool.eq_false_iff]
    intro hcon
    rw [beq_iff_eq] at hcon
    have hkj := hnd.get_inj_iff.mp (show (l.map TVal.val).get ⟨k, by simpa using hkl⟩ =
        (l.map TVal.val).get ⟨j, by simpa using hj⟩ by
      simp [List.get_eq_getElem, List.getElem_map, hcon, hv])
    have : k = j := congrArg Fin.val hkj
    omega

theorem findIdx_of_mem_nodup (l : List TVal) (v : TVal)
    (hnd : (l.map TVal.val).Nodup) (hv : v ∈ l) :
    l.findIdx (fun r => r.val == v.val) < l.length ∧
    l.getD (l.findIdx (fun r => r.val == v.val)) default = v := by
  obtain ⟨j, hj, hvj⟩ := List.mem_iff_getElem.mp hv
  have heq := findIdx_val_eq l v j hj hvj hnd
  rw [heq]
  exact ⟨hj, by rw [List.getD_eq_getElem _ _ hj]; exact hvj⟩

theorem permute_yield_group (applyOp : ApplyOp) (ops : List TVal) (ret : ReturnOp)
    (hver : ReturnOp.verify applyOp.resultTypes ret = true)
    (hmem : ∀ v ∈ ops, v ∈ applyOp.results)
    (repl : List Nat) (i : Nat) (hi : i < ops.length) :
    (((permuteReturnOpOperands applyOp ops ret).map (remapVRef repl 0)).drop
        (i * ret.getUnrollFac)).take ret.getUnrollFac =
      ((ret.operands.drop
          (findResultIndex applyOp (ops.getD i default) * ret.getUnrollFac)).take
        ret.getUnrollFac).map (remapVRef repl 0) := by
  have hlen := verify_length _ _ hver
  have hrtlen : applyOp.resultTypes.length = applyOp.results.length := by
    simp [ApplyOp.resultTypes]
  unfold permuteReturnOpOperands
  rw [List.map_flatten, List.map_map]
  rw [flatten_drop_take_of_length _ ret.getUnrollFac (by
    intro l hl
    obtain ⟨v, hv, hleq⟩ := List.mem_map.mp hl
    rw [← hleq]
    have hidx : applyOp.results.findIdx (fun r => r.val == v.val) < applyOp.results.length :=
      List.findIdx_lt_length.mpr ⟨v, hmem v hv, by simp⟩
    have hle : applyOp.results.findIdx (fun r => r.val == v.val) * ret.getUnrollFac +
        ret.getUnrollFac ≤ ret.operands.length := by
      rw [hlen, hrtlen]
      calc applyOp.results.findIdx (fun r => r.val == v.val) * ret.getUnrollFac +
            ret.getUnrollFac
          = (applyOp.results.findIdx (fun r => r.val == v.val) + 1) * ret.getUnrollFac := by
            ring
        _ ≤ applyOp.results.length * ret.getUnrollFac :=
            Nat.mul_le_mul_right _ (Nat.succ_le_of_lt hidx)
        _ = ret.getUnrollFac * applyOp.results.length := Nat.mul_comm _ _
    simp only [Function.comp, List.length_map, List.length_take, List.length_drop]
    exact Nat.min_eq_left (Nat.le_sub_of_add_le (by rw [Nat.add_comm]; exact hle)))
    i (by simpa using hi)]
  rw [List.getD_eq_getElem _ _ (by simpa using hi), List.getElem_map]
  simp only [Function.comp]
  unfold findResultIndex
  rw [List.getD_eq_getElem _ _ hi]

theorem permute_yield_types (applyOp : ApplyOp) (ops : List TVal) (ret : ReturnOp)
    (hver : ReturnOp.verify applyOp.resultTypes ret = true)
    (hnd : (applyOp.results.map TVal.val).Nodup)
    (hmem : ∀ v ∈ ops, v ∈ applyOp.results) (repl : List Nat) :
    ((permuteReturnOpOperands applyOp ops ret).map (remapVRef repl 0)).map VRef.ty =
      (ops.map (fun v => List.replicate ret.getUnrollFac
        (MType.result v.ty.elementType))).flatten := by
  have hrtlen : applyOp.resultTypes.length = applyOp.results.length := by
    simp [ApplyOp.resultTypes]
  unfold permuteReturnOpOperands
  rw [List.map_flatten, List.map_flatten, List.map_map, List.map_map]
  congr 1
  apply List.map_congr_left
  intro v hv
  obtain ⟨hidx, hval⟩ := findIdx_of_mem_nodup applyOp.results v hnd (hmem v hv)
  simp only [Function.comp]
  rw [List.map_map]
  have hty : VRef.ty ∘ remapVRef repl 0 = VRef.ty := funext fun x => rfl
  rw [hty]
  rw [verify_group_types applyOp.resultTypes ret hver
        (applyOp.results.findIdx (fun r => r.val == v.val)) (by rw [hrtlen]; exact hidx)]
  congr 2
  have hgd : applyOp.resultTypes.getD
      (applyOp.results.findIdx (fun r => r.val == v.val)) default =
      (applyOp.results.getD (applyOp.results.findIdx (fun r => r.val == v.val)) default).ty := by
    rw [List.getD_eq_getElem _ _ (by rw [hrtlen]; exact hidx),
        List.getD_eq_getElem _ _ hidx]
    simp [ApplyOp.resultTypes]
  rw [hgd, hval]

set_option maxHeartbeats 800000 in
/-- Claim C5 (amended): when the IfElse lowering fires, each branch
terminator yields, for each entry of the combine's lower (respectively
upper) operand list in order, the group of unroll-factor consecutive
operands of the original return op starting at the entry's result index
times the unroll factor (remapped to the new apply's arguments); and the
yielded types are the result types wrapping the element types of the
combine's result types, each repeated unroll-factor times (not the
combine's temp result types themselves). -/
theorem claim_ifelse_yield_permutation (lowerOp upperOp : ApplyOp) (combineOp : CombineOp)
    (hfac : lowerOp.body.ret.getUnrollFac = upperOp.body.ret.getUnrollFac)
    (hdim : lowerOp.body.ret.getUnrollDim = upperOp.body.ret.getUnrollDim)
    (hverL : ReturnOp.verify lowerOp.resultTypes lowerOp.body.ret = true)
    (hverU : ReturnOp.verify upperOp.resultTypes upperOp.body.ret = true)
    (hndL : (lowerOp.results.map TVal.val).Nodup)
    (hndU : (upperOp.results.map TVal.val).Nodup)
    (hmemL : ∀ v ∈ combineOp.lower, v ∈ lowerOp.results)
    (hmemU : ∀ v ∈ combineOp.upper, v ∈ upperOp.results)
    (htyL : ∀ i, i < combineOp.lower.length →
      (combineOp.resultTypes.getD i default).elementType =
        (combineOp.lower.getD i default).ty.elementType)
    (htyU : ∀ i, i < combineOp.upper.length →
      (combineOp.resultTypes.getD i default).elementType =
        (combineOp.upper.getD i default).ty.elementType) :
    ∃ r : IfElseApply,
      (lowerStencilCombine lowerOp upperOp combineOp).result = some r ∧
      (∀ i, i < combineOp.lower.length →
        (r.thenBlock.yieldOperands.drop (i * lowerOp.body.ret.getUnrollFac)).take
            lowerOp.body.ret.getUnrollFac =
          ((lowerOp.body.ret.operands.drop
              (findResultIndex lowerOp (combineOp.lower.getD i default) *
                lowerOp.body.ret.getUnrollFac)).take lowerOp.body.ret.getUnrollFac).map
            (remapVRef (List.range lowerOp.operands.length) 0)) ∧
      (∀ i, i < combineOp.upper.length →
        (r.elseBlock.yieldOperands.drop (i * upperOp.body.ret.getUnrollFac)).take
            upperOp.body.ret.getUnrollFac =
          ((upperOp.body.ret.operands.drop
              (findResultIndex upperOp (combineOp.upper.getD i default) *
                upperOp.body.ret.getUnrollFac)).take upperOp.body.ret.getUnrollFac).map
            (remapVRef (List.range upperOp.operands.length) 0)) ∧
      r.thenBlock.yieldOperands.map VRef.ty =
        ((List.range combineOp.lower.length).map (fun i =>
          List.replicate lowerOp.body.ret.getUnrollFac
            (MType.result ((combineOp.resultTypes.getD i default).elementType)))).flatten ∧
      r.elseBlock.yieldOperands.map VRef.ty =
        ((List.range combineOp.upper.length).map (fun i =>
          List.replicate upperOp.body.ret.getUnrollFac
            (MType.result ((combineOp.resultTypes.getD i default).elementType)))).flatten := by
  rw [lowerStencilCombine_success lowerOp upperOp combineOp hfac hdim]
  refine ⟨_, rfl, ?_, ?_, ?_, ?_⟩
  · intro i hi
    dsimp only
    rw [repl_take_front]
    exact permute_yield_group lowerOp combineOp.lower lowerOp.body.ret hverL hmemL _ i hi
  · intro i hi
    dsimp only
    rw [repl_take_front']
    exact permute_yield_group upperOp combineOp.upper upperOp.body.ret hverU hmemU _ i hi
  · dsimp only
    rw [repl_take_front]
    rw [permute_yield_types lowerOp combineOp.lower lowerOp.body.ret hverL hndL hmemL _]
    congr 1
    apply List.ext_getElem
    · simp
    · intro n h1 h2
      simp only [List.getElem_map, List.getElem_range]
      have hty := htyL n (by simpa using h1)
      rw [hty, List.getD_eq_getElem _ _ (by simpa using h1)]
  · dsimp only
    rw [repl_take_front']
    rw [permute_yield_types upperOp combineOp.upper upperOp.body.ret hverU hndU hmemU _]
    congr 1
    apply List.ext_getElem
    · simp
    · intro n h1 h2
      simp only [List.getElem_map, List.getElem_range]
      have hty := htyU n (by simpa using h1)
      rw [hty, List.getD_eq_getElem _ _ (by simpa using h1)]

/-- Witness for the amended claim C5 at the example combine. -/
theorem claim_ifelse_yield_permutation_witness :
    ∃ r : IfElseApply,
      (lowerStencilCombine exLowerOp exUpperOp exCombineOp).result = some r ∧
      (∀ i, i < exCombineOp.lower.length →
        (r.thenBlock.yieldOperands.drop (i * exLowerOp.body.ret.getUnrollFac)).take
            exLowerOp.body.ret.getUnrollFac =
          ((exLowerOp.body.ret.operands.drop
              (findResultIndex exLowerOp (exCombineOp.lower.getD i default) *
                exLowerOp.body.ret.getUnrollFac)).take exLowerOp.body.ret.getUnrollFac).map
            (remapVRef (List.range exLowerOp.operands.length) 0)) ∧
      (∀ i, i < exCombineOp.upper.length →
        (r.elseBlock.yieldOperands.drop (i * exUpperOp.body.ret.getUnrollFac)).take
            exUpperOp.body.ret.getUnrollFac =
          ((exUpperOp.body.ret.operands.drop
              (findResultIndex exUpperOp (exCombineOp.upper.getD i default) *
                exUpperOp.body.ret.getUnrollFac)).take exUpperOp.body.ret.getUnrollFac).map
            (remapVRef (List.range exUpperOp.operands.length) 0)) ∧
      r.thenBlock.yieldOperands.map VRef.ty =
        ((List.range exCombineOp.lower.length).map (fun i =>
          List.replicate exLowerOp.body.ret.getUnrollFac
            (MType.result ((exCombineOp.resultTypes.getD i default).elementType)))).flatten ∧
      r.elseBlock.yieldOperands.map VRef.ty =
        ((List.range exCombineOp.upper.length).map (fun i =>
          List.replicate exUpperOp.body.ret.getUnrollFac
            (MType.result ((exCombineOp.resultTypes.getD i default).elementType)))).flatten :=
  claim_ifelse_yield_permutation exLowerOp exUpperOp exCombineOp rfl rfl
    (by decide) (by decide) (by decide) (by decide) (by decide) (by decide)
    (by decide) (by decide)

/-- Counterexample to the type clause of claim C5 as stated: at the
example combine the lowering succeeds and the then-branch yields a value
of result type `f64`, which differs from the combine's result types (temp
types), so the yielded types do not equal the combine's result types. -/
theorem claim_ifelse_yield_types_counterexample :
    (lowerStencilCombine exLowerOp exUpperOp exCombineOp).result.map
        (fun r => r.thenBlock.yieldOperands.map VRef.ty) =
      some [MType.result EType.f64] ∧
    (lowerStencilCombine exLowerOp exUpperOp exCombineOp).result.map
        (fun r => decide (r.thenBlock.yieldOperands.map VRef.ty = exCombineOp.resultTypes)) =
      some false ∧
    exCombineOp.resultTypes = [MType.temp EType.f64 [64, 64, 60]] := by
  decide

end Stencil
